import Mathlib

/-!
# userprog/syscall.c : the system-call layer

A shallow embedding of `src/userprog/syscall.c`.  Kernel state is passed
explicitly; every call that leaves the file (filesystem, allocator, process
lifecycle, console, locks) is appended to an event trace, so that "which
collaborator was called, with what, and under which lock" is a property of
the trace.  `sys_exit` contains two `while` loops and is given fuel.
-/

namespace Pintos

/-! ## Data model -/

abbrev fid_t := Int
abbrev mapid_t := Int
abbrev pid_t := Int

/-- A non-null `struct file *`; the null pointer is `none` at the use sites. -/
abbrev FilePtr := Nat

/-- The two lock objects the file names: `file_lock` (declared in the file) and
`filesys_lock` (used by `sys_filesize`). -/
inductive Lock where
  | file_lock
  | filesys_lock
  deriving DecidableEq, Repr

/-- Everything observable that a handler does outside its own locals. -/
inductive Event where
  | lock_acquire (l : Lock)
  | lock_release (l : Lock)
  | printf (s : String)
  | exit_msg (name : String) (status : Int)
  | intr_register_int (vec : Nat)
  | filesys_open (path : String) (r : Option FilePtr)
  | filesys_create (path : String) (initial_size : Nat) (r : Bool)
  | filesys_remove (path : String) (r : Bool)
  | file_length (f : FilePtr) (r : Int)
  | file_seek (f : FilePtr) (position : Nat)
  | file_close (f : FilePtr)
  | process_execute (file : Option String) (r : pid_t)
  | process_wait (pid : pid_t) (r : Int)
  | malloc (ok : Bool)
  | allocate_fid (r : fid_t)
  | shutdown_power_off
  | thread_exit
  deriving DecidableEq, Repr

/-- The `struct user_file` of the source, without its list linkage. -/
structure user_file where
  file : FilePtr
  fid : fid_t
  deriving DecidableEq, Repr

/-- Modelled from the spec: `struct vm_mfile` is declared outside
`userprog/syscall.c`; the file reads only its `mapid` (the spec's mappingId). -/
structure vm_mfile where
  mapid : mapid_t
  deriving DecidableEq, Repr

/-- The members of `struct thread` that the file names, each as it is spelled
there: `files` is the list `sys_open` pushes to (syscall.c:162), `files_lsit`
the list whose emptiness `sys_exit` tests (:84), `files_list` the list whose
first element `sys_exit` reads (:86), `mfiles` the mapping list (:90, :92).
The declaration itself is in `threads/thread.h`, outside the file. -/
structure thread where
  name : String
  files : List user_file
  files_list : List user_file
  files_lsit : List user_file
  mfiles : List vm_mfile
  ret_status : Int
  deriving DecidableEq, Repr

/-- The syscall numbers of `syscall-nr.h` that `syscall_init` registers. -/
inductive SyscallNr where
  | SYS_HALT | SYS_EXIT | SYS_EXEC | SYS_WAIT | SYS_CREATE | SYS_REMOVE
  | SYS_OPEN | SYS_FILESIZE | SYS_READ | SYS_WRITE | SYS_SEEK | SYS_TELL
  | SYS_CLOSE | SYS_MMAP | SYS_MUNMAP
  deriving DecidableEq, Repr

/-- The fifteen handler functions of the file, as table entries. -/
inductive Handler where
  | sys_halt | sys_exit | sys_exec | sys_wait | sys_create | sys_remove
  | sys_open | sys_filesize | sys_read | sys_write | sys_seek | sys_tell
  | sys_close | sys_mmap | sys_munmap
  deriving DecidableEq, Repr

/-- Modelled from the spec: `struct intr_frame` is declared in
`threads/interrupt.h`; the spec's frame carries a syscall number, up to three
argument words and a result register. -/
structure intr_frame where
  number : SyscallNr
  args : List Int
  eax : Int
  deriving DecidableEq, Repr

/-- The collaborators the file calls but does not define, over an abstract
world state `W`: filesystem, allocator, descriptor allocator, process
lifecycle and the descriptor lookup used by `sys_filesize`. -/
structure Collab (W : Type) where
  filesys_open : W → String → Option FilePtr × W
  filesys_create : W → String → Nat → Bool × W
  filesys_remove : W → String → Bool × W
  file_length : W → FilePtr → Int × W
  file_seek : W → FilePtr → Nat → W
  file_close : W → FilePtr → W
  process_execute : W → Option String → pid_t × W
  process_wait : W → pid_t → Int × W
  malloc : W → Bool × W
  allocate_fid : W → fid_t × W
  process_get_file : W → thread → Int → Option FilePtr

/-- Kernel state seen by the handlers: the collaborators' world, the running
thread, the locks it holds, the dispatch table and the event trace. -/
structure Kernel (W : Type) where
  world : W
  cur : thread
  held : List Lock
  syscall_map : List (SyscallNr × Handler)
  trace : List Event

/-- How a handler ends: it returns a value to its caller, the thread reaches
`thread_exit`, the machine is powered off, or a loop is still running when the
fuel is used up. -/
inductive Result (W : Type) (α : Type) where
  | ret (v : α) (k : Kernel W)
  | exited (k : Kernel W)
  | powered_off (k : Kernel W)
  | spin

/-! ## Primitive steps

Functions the file calls and does not define (`lock_acquire`, `lock_release`,
`printf`, `thread_exit`, the filesystem, `malloc`, ...) are represented by the
event they leave in the trace and, where they return something, by the
matching field of `Collab`.  Locks are tracked for the running thread only:
acquiring adds the lock to `held`, releasing removes it. -/

section steps
variable {W : Type}

def log (e : Event) (k : Kernel W) : Kernel W :=
  { k with trace := k.trace ++ [e] }

def lock_acquire (l : Lock) (k : Kernel W) : Kernel W :=
  { k with held := l :: k.held, trace := k.trace ++ [Event.lock_acquire l] }

def lock_release (l : Lock) (k : Kernel W) : Kernel W :=
  { k with held := k.held.erase l, trace := k.trace ++ [Event.lock_release l] }

def lock_held_by_current_thread (l : Lock) (k : Kernel W) : Bool :=
  k.held.contains l

def thread_exit (k : Kernel W) : Kernel W :=
  log Event.thread_exit k

def filesys_open (c : Collab W) (k : Kernel W) (path : String) :
    Option FilePtr × Kernel W :=
  let r := c.filesys_open k.world path
  (r.1, { k with world := r.2, trace := k.trace ++ [Event.filesys_open path r.1] })

def filesys_create (c : Collab W) (k : Kernel W) (path : String) (initial_size : Nat) :
    Bool × Kernel W :=
  let r := c.filesys_create k.world path initial_size
  (r.1, { k with world := r.2,
                 trace := k.trace ++ [Event.filesys_create path initial_size r.1] })

def filesys_remove (c : Collab W) (k : Kernel W) (path : String) : Bool × Kernel W :=
  let r := c.filesys_remove k.world path
  (r.1, { k with world := r.2, trace := k.trace ++ [Event.filesys_remove path r.1] })

def file_length (c : Collab W) (k : Kernel W) (f : FilePtr) : Int × Kernel W :=
  let r := c.file_length k.world f
  (r.1, { k with world := r.2, trace := k.trace ++ [Event.file_length f r.1] })

def file_seek (c : Collab W) (k : Kernel W) (f : FilePtr) (position : Nat) : Kernel W :=
  { k with world := c.file_seek k.world f position,
           trace := k.trace ++ [Event.file_seek f position] }

def file_close (c : Collab W) (k : Kernel W) (f : FilePtr) : Kernel W :=
  { k with world := c.file_close k.world f, trace := k.trace ++ [Event.file_close f] }

def process_execute (c : Collab W) (k : Kernel W) (file : Option String) :
    pid_t × Kernel W :=
  let r := c.process_execute k.world file
  (r.1, { k with world := r.2, trace := k.trace ++ [Event.process_execute file r.1] })

def process_wait (c : Collab W) (k : Kernel W) (pid : pid_t) : Int × Kernel W :=
  let r := c.process_wait k.world pid
  (r.1, { k with world := r.2, trace := k.trace ++ [Event.process_wait pid r.1] })

def malloc (c : Collab W) (k : Kernel W) : Bool × Kernel W :=
  let r := c.malloc k.world
  (r.1, { k with world := r.2, trace := k.trace ++ [Event.malloc r.1] })

def allocate_fid (c : Collab W) (k : Kernel W) : fid_t × Kernel W :=
  let r := c.allocate_fid k.world
  (r.1, { k with world := r.2, trace := k.trace ++ [Event.allocate_fid r.1] })

/-- The call `list_push_back (&thread_current ()->files, &f->thread_elem)`. -/
def list_push_back_files (k : Kernel W) (f : user_file) : Kernel W :=
  { k with cur := { k.cur with files := k.cur.files ++ [f] } }

/-- Modelled from the spec: `file_by_fid` is called by `sys_seek` but defined
elsewhere; the spec makes descriptor lookup a linear scan of the owning
process's list. -/
def file_by_fid (k : Kernel W) (fd : Int) : Option user_file :=
  k.cur.files.find? (fun f => decide (f.fid = fd))

/-- Modelled from the spec: the macro `ERROR` returned by `sys_filesize` is
defined outside the file; the spec's failure sentinel is -1. -/
def ERROR : Int := -1

end steps

/-! ## The handlers

`sys_read`, `sys_write`, `sys_tell` and `sys_mmap` have empty bodies and a
non-void return type in the source; nothing below depends on them and they
are not given a definition. -/

section handlers
variable {W : Type}

/-- The source function `syscall_init`: registers the trap vector, fills the
table, initialises the lock. -/
def syscall_init (k : Kernel W) : Kernel W :=
  let k := log (Event.intr_register_int 0x30) k
  { k with
    syscall_map :=
      [ (SyscallNr.SYS_HALT, Handler.sys_halt),
        (SyscallNr.SYS_EXIT, Handler.sys_exit),
        (SyscallNr.SYS_EXEC, Handler.sys_exec),
        (SyscallNr.SYS_WAIT, Handler.sys_wait),
        (SyscallNr.SYS_CREATE, Handler.sys_create),
        (SyscallNr.SYS_REMOVE, Handler.sys_remove),
        (SyscallNr.SYS_OPEN, Handler.sys_open),
        (SyscallNr.SYS_FILESIZE, Handler.sys_filesize),
        (SyscallNr.SYS_READ, Handler.sys_read),
        (SyscallNr.SYS_WRITE, Handler.sys_write),
        (SyscallNr.SYS_SEEK, Handler.sys_seek),
        (SyscallNr.SYS_TELL, Handler.sys_tell),
        (SyscallNr.SYS_CLOSE, Handler.sys_close),
        (SyscallNr.SYS_MMAP, Handler.sys_mmap),
        (SyscallNr.SYS_MUNMAP, Handler.sys_munmap) ],
    held := [] }

/-- The source function `syscall_handler`: its frame parameter is unused; it
prints a line and ends the thread.  The frame is returned as it was passed. -/
def syscall_handler (k : Kernel W) (f : intr_frame) : intr_frame × Result W Unit :=
  let k1 := log (Event.printf "system call!\n") k
  (f, Result.exited (thread_exit k1))

def sys_halt (k : Kernel W) : Result W Unit :=
  Result.powered_off (log Event.shutdown_power_off k)

/-- The source function `sys_close`: the body is empty. -/
def sys_close (k : Kernel W) (_fd : Int) : Kernel W := k

/-- The source function `sys_munmap`: the body is empty. -/
def sys_munmap (k : Kernel W) (_mapid : mapid_t) : Kernel W := k

/-- The descriptor `list_entry (list_begin (&cur->files_list), ...)->fid`.  On
an empty `files_list` the source reads it through the list's tail sentinel,
an indeterminate value, for which 0 stands; `sys_close` ignores it. -/
def first_fid (k : Kernel W) : Int :=
  match k.cur.files_list with
  | [] => 0
  | f :: _ => f.fid

/-- First loop of `sys_exit`: while `files_lsit` is not empty, call `sys_close`
on the descriptor of the first entry of `files_list`.  `none` when the fuel
runs out with `files_lsit` still not empty. -/
def drain_files : Nat → Kernel W → Option (Kernel W)
  | 0, k => if k.cur.files_lsit.isEmpty then some k else none
  | n + 1, k =>
    match k.cur.files_lsit with
    | [] => some k
    | _ :: _ => drain_files n (sys_close k (first_fid k))

/-- Second loop of `sys_exit`: while the mapping list is not empty, call
`sys_munmap` on the id of its first entry. -/
def drain_mfiles : Nat → Kernel W → Option (Kernel W)
  | 0, k => if k.cur.mfiles.isEmpty then some k else none
  | n + 1, k =>
    match k.cur.mfiles with
    | [] => some k
    | m :: _ => drain_mfiles n (sys_munmap k m.mapid)

/-- The source function `sys_exit`.  `some k` is the state in which
`thread_exit` is reached; `none` means a drain loop is still running after
`fuel` iterations. -/
def sys_exit (fuel : Nat) (k : Kernel W) (status : Int) : Option (Kernel W) :=
  let k1 :=
    if lock_held_by_current_thread Lock.file_lock k then lock_release Lock.file_lock k
    else k
  match drain_files fuel k1 with
  | none => none
  | some k2 =>
    match drain_mfiles fuel k2 with
    | none => none
    | some k3 =>
      let k4 : Kernel W := { k3 with cur := { k3.cur with ret_status := status } }
      let k5 := log (Event.exit_msg k4.cur.name status) k4
      some (thread_exit k5)

/-- A call of `sys_exit` in statement position: control does not come back. -/
def of_exit {α : Type} : Option (Kernel W) → Result W α
  | none => Result.spin
  | some k => Result.exited k

def sys_exec (c : Collab W) (k : Kernel W) (file : Option String) : Result W pid_t :=
  let k1 := lock_acquire Lock.file_lock k
  let r := process_execute c k1 file
  let k3 := lock_release Lock.file_lock r.2
  Result.ret r.1 k3

def sys_wait (c : Collab W) (k : Kernel W) (pid : pid_t) : Result W Int :=
  let r := process_wait c k pid
  Result.ret r.1 r.2

def sys_create (fuel : Nat) (c : Collab W) (k : Kernel W) (file : Option String)
    (initial_size : Nat) : Result W Bool :=
  match file with
  | none => of_exit (sys_exit fuel k (-1))
  | some path =>
    let k1 := lock_acquire Lock.file_lock k
    let r := filesys_create c k1 path initial_size
    let k3 := lock_release Lock.file_lock r.2
    Result.ret r.1 k3

def sys_remove (fuel : Nat) (c : Collab W) (k : Kernel W) (file : Option String) :
    Result W Bool :=
  match file with
  | none => of_exit (sys_exit fuel k (-1))
  | some path =>
    let k1 := lock_acquire Lock.file_lock k
    let r := filesys_remove c k1 path
    let k3 := lock_release Lock.file_lock r.2
    Result.ret r.1 k3

def sys_open (c : Collab W) (k : Kernel W) (file : Option String) : Result W Int :=
  match file with
  | none => Result.ret (-1) k
  | some path =>
    let k1 := lock_acquire Lock.file_lock k
    let r := filesys_open c k1 path
    let k3 := lock_release Lock.file_lock r.2
    match r.1 with
    | none => Result.ret (-1) k3
    | some sys_file =>
      let m := malloc c k3
      if m.1 = false then
        Result.ret (-1) (file_close c m.2 sys_file)
      else
        let k5 := lock_acquire Lock.file_lock m.2
        let a := allocate_fid c k5
        let k7 := list_push_back_files a.2 { file := sys_file, fid := a.1 }
        let k8 := lock_release Lock.file_lock k7
        Result.ret a.1 k8

def sys_filesize (c : Collab W) (k : Kernel W) (fd : Int) : Result W Int :=
  let k1 := lock_acquire Lock.filesys_lock k
  match c.process_get_file k1.world k1.cur fd with
  | none => Result.ret ERROR (lock_release Lock.filesys_lock k1)
  | some f =>
    let r := file_length c k1 f
    Result.ret r.1 (lock_release Lock.filesys_lock r.2)

def sys_seek (fuel : Nat) (c : Collab W) (k : Kernel W) (fd : Int) (position : Nat) :
    Result W Unit :=
  match file_by_fid k fd with
  | none => of_exit (sys_exit fuel k (-1))
  | some f =>
    let k1 := lock_acquire Lock.file_lock k
    let k2 := file_seek c k1 f.file position
    Result.ret () (lock_release Lock.file_lock k2)

/-- The source function `sys_read`: the body is empty, so the state is what it
was; the `int` it is declared to return is indeterminate and is not modelled. -/
def sys_read (k : Kernel W) (_fd : Int) (_buffer : Nat) (_size : Nat) : Kernel W := k

/-- The source function `sys_write`: empty body, as `sys_read`. -/
def sys_write (k : Kernel W) (_fd : Int) (_buffer : Nat) (_size : Nat) : Kernel W := k

/-- The source function `sys_tell`: empty body, as `sys_read`. -/
def sys_tell (k : Kernel W) (_fd : Int) : Kernel W := k

/-- The source function `sys_mmap`: empty body, as `sys_read`. -/
def sys_mmap (k : Kernel W) (_fd : Int) (_addr : Nat) : Kernel W := k

end handlers

/-! ## Processes driven by the handlers -/

section processes
variable {W : Type}

/-- One call of a handler of the file together with its arguments.  `sys_halt`
and `sys_exit` are left out: no process continues after them. -/
inductive Call where
  | exec (file : Option String)
  | wait (pid : pid_t)
  | create (file : Option String) (initial_size : Nat)
  | remove (file : Option String)
  | opn (file : Option String)
  | filesize (fd : Int)
  | read (fd : Int) (buffer : Nat) (size : Nat)
  | write (fd : Int) (buffer : Nat) (size : Nat)
  | seek (fd : Int) (position : Nat)
  | tell (fd : Int)
  | close (fd : Int)
  | mmap (fd : Int) (addr : Nat)
  | munmap (mapid : mapid_t)
  deriving DecidableEq, Repr

/-- The state in which the caller goes on after a handler, if it does. -/
def Result.continues {α : Type} : Result W α → Option (Kernel W)
  | Result.ret _ k => some k
  | _ => none

/-- Runs one handler; `none` when the process does not continue after it. -/
def step (fuel : Nat) (c : Collab W) (k : Kernel W) : Call → Option (Kernel W)
  | Call.exec file => (sys_exec c k file).continues
  | Call.wait pid => (sys_wait c k pid).continues
  | Call.create file initial_size => (sys_create fuel c k file initial_size).continues
  | Call.remove file => (sys_remove fuel c k file).continues
  | Call.opn file => (sys_open c k file).continues
  | Call.filesize fd => (sys_filesize c k fd).continues
  | Call.read fd buffer size => some (sys_read k fd buffer size)
  | Call.write fd buffer size => some (sys_write k fd buffer size)
  | Call.seek fd position => (sys_seek fuel c k fd position).continues
  | Call.tell fd => some (sys_tell k fd)
  | Call.close fd => some (sys_close k fd)
  | Call.mmap fd addr => some (sys_mmap k fd addr)
  | Call.munmap mapid => some (sys_munmap k mapid)

/-- Runs a sequence of handler calls, one after the other. -/
def run (fuel : Nat) (c : Collab W) : Kernel W → List Call → Option (Kernel W)
  | k, [] => some k
  | k, x :: xs =>
    match step fuel c k x with
    | none => none
    | some k1 => run fuel c k1 xs

/-- Modelled from the spec: thread creation is outside the file; a process
starts with no open-file record, no mapping record and no lock held. -/
def fresh (w : W) (name : String) : Kernel W where
  world := w
  cur := { name := name, files := [], files_list := [], files_lsit := [],
           mfiles := [], ret_status := 0 }
  held := []
  syscall_map := []
  trace := []

end processes

/-! ## Reading a trace -/

section traces
variable {W : Type}

/-- Calls into the filesystem collaborator. -/
def Event.is_filesys : Event → Bool
  | Event.filesys_open _ _ => true
  | Event.filesys_create _ _ _ => true
  | Event.filesys_remove _ _ => true
  | Event.file_length _ _ => true
  | Event.file_seek _ _ => true
  | Event.file_close _ => true
  | _ => false

/-- Calls into the filesystem or the process-creation collaborator. -/
def Event.is_collab : Event → Bool
  | Event.process_execute _ _ => true
  | e => e.is_filesys

/-- Scans a trace with the current "lock `l` is held" bit and checks that every
collaborator call happens while the bit is set. -/
def guarded (l : Lock) : Bool → List Event → Bool
  | _, [] => true
  | h, e :: es =>
    if e = Event.lock_acquire l then guarded l true es
    else if e = Event.lock_release l then guarded l false es
    else (!e.is_collab || h) && guarded l h es

/-- Handles obtained from `filesys_open` and not yet passed to `file_close`. -/
def open_handles_from : List FilePtr → List Event → List FilePtr
  | hs, [] => hs
  | hs, Event.filesys_open _ (some h) :: es => open_handles_from (h :: hs) es
  | hs, Event.file_close h :: es => open_handles_from (hs.erase h) es
  | hs, _ :: es => open_handles_from hs es

def open_handles (es : List Event) : List FilePtr := open_handles_from [] es

/-- The final kernel state of a run, when there is one. -/
def Result.kernel {α : Type} : Result W α → Option (Kernel W)
  | Result.ret _ k => some k
  | Result.exited k => some k
  | Result.powered_off k => some k
  | Result.spin => none

/-- The events a run appended to the trace of the state `k` it started in. -/
def new_events {α : Type} (k : Kernel W) (r : Result W α) : List Event :=
  match r.kernel with
  | some k1 => k1.trace.drop k.trace.length
  | none => []

/-- Releasing `file_lock` when it is held, as `sys_exit` does first. -/
def release_if_held (k : Kernel W) : Kernel W :=
  if lock_held_by_current_thread Lock.file_lock k then lock_release Lock.file_lock k
  else k

end traces

/-! ## Concrete collaborators and states -/

/-- A filesystem in which every call succeeds; descriptors are handed out from
2 upwards, the world state being the number handed out so far. -/
def c0 : Collab Nat where
  filesys_open := fun w _ => (some 7, w)
  filesys_create := fun w _ _ => (true, w)
  filesys_remove := fun w _ => (true, w)
  file_length := fun w _ => (10, w)
  file_seek := fun w _ _ => w
  file_close := fun w _ => w
  process_execute := fun w _ => (1, w)
  process_wait := fun w _ => (0, w)
  malloc := fun w => (true, w)
  allocate_fid := fun w => ((w : Int) + 2, w + 1)
  process_get_file := fun _ t fd =>
    (t.files.find? (fun f => decide (f.fid = fd))).map (fun f => f.file)

/-- As `c0`, with an allocator that is out of memory. -/
def c_nomem : Collab Nat := { c0 with malloc := fun w => (false, w) }

/-- As `c0`, with a filesystem that finds no file. -/
def c_nofile : Collab Nat := { c0 with filesys_open := fun w _ => (none, w) }

/-- A fresh process: no open file, no mapping, no lock held. -/
def k0 : Kernel Nat := fresh 0 "main"

/-- The state `sys_open c0 k0 (some "a.txt")` returns in: one open-file record. -/
def k_one : Kernel Nat where
  world := 1
  cur := { name := "main", files := [{ file := 7, fid := 2 }], files_list := [],
           files_lsit := [], mfiles := [], ret_status := 0 }
  held := []
  syscall_map := []
  trace := [Event.lock_acquire Lock.file_lock, Event.filesys_open "a.txt" (some 7),
            Event.lock_release Lock.file_lock, Event.malloc true,
            Event.lock_acquire Lock.file_lock, Event.allocate_fid 2,
            Event.lock_release Lock.file_lock]

/-! ## Shared lemmas -/

section lemmas
variable {W : Type}

theorem drain_files_nil (fuel : Nat) (k : Kernel W) (h : k.cur.files_lsit = []) :
    drain_files fuel k = some k := by
  cases fuel <;> simp [drain_files, h]

theorem drain_mfiles_nil (fuel : Nat) (k : Kernel W) (h : k.cur.mfiles = []) :
    drain_mfiles fuel k = some k := by
  cases fuel <;> simp [drain_mfiles, h]

theorem drain_files_spin (fuel : Nat) (k : Kernel W) (h : k.cur.files_lsit ≠ []) :
    drain_files fuel k = none := by
  induction fuel with
  | zero =>
    cases hf : k.cur.files_lsit with
    | nil => exact absurd hf h
    | cons a l => simp [drain_files, hf]
  | succ n ih =>
    cases hf : k.cur.files_lsit with
    | nil => exact absurd hf h
    | cons a l => simp [drain_files, hf, sys_close, ih]

theorem drain_mfiles_spin (fuel : Nat) (k : Kernel W) (h : k.cur.mfiles ≠ []) :
    drain_mfiles fuel k = none := by
  induction fuel with
  | zero =>
    cases hf : k.cur.mfiles with
    | nil => exact absurd hf h
    | cons a l => simp [drain_mfiles, hf]
  | succ n ih =>
    cases hf : k.cur.mfiles with
    | nil => exact absurd hf h
    | cons a l => simp [drain_mfiles, hf, sys_munmap, ih]

theorem release_if_held_cur (k : Kernel W) : (release_if_held k).cur = k.cur := by
  unfold release_if_held
  split <;> rfl

theorem sys_exit_unfold (fuel : Nat) (k : Kernel W) (status : Int) :
    sys_exit fuel k status =
      match drain_files fuel (release_if_held k) with
      | none => none
      | some k2 =>
        match drain_mfiles fuel k2 with
        | none => none
        | some k3 =>
          some (thread_exit (log (Event.exit_msg k3.cur.name status)
            { k3 with cur := { k3.cur with ret_status := status } })) := rfl

/-- With a record in `files_lsit`, `sys_exit` stays in its first loop. -/
theorem sys_exit_spin_files (fuel : Nat) (k : Kernel W) (status : Int)
    (h : k.cur.files_lsit ≠ []) : sys_exit fuel k status = none := by
  rw [sys_exit_unfold,
    drain_files_spin fuel (release_if_held k) (by rw [release_if_held_cur]; exact h)]

/-- With a mapping record in the list, `sys_exit` does not get past its second
loop. -/
theorem sys_exit_spin_mfiles (fuel : Nat) (k : Kernel W) (status : Int)
    (h : k.cur.mfiles ≠ []) : sys_exit fuel k status = none := by
  rw [sys_exit_unfold]
  by_cases hf : (release_if_held k).cur.files_lsit = []
  · rw [drain_files_nil fuel _ hf]
    simp only
    rw [drain_mfiles_spin fuel (release_if_held k) (by rw [release_if_held_cur]; exact h)]
  · rw [drain_files_spin fuel _ hf]

/-- With `files_lsit` and `mfiles` empty `sys_exit` releases `file_lock` if it is
held, records the status, prints the exit line and reaches `thread_exit`,
whatever the fuel. -/
theorem sys_exit_empty (fuel : Nat) (k : Kernel W) (status : Int)
    (hf : k.cur.files_lsit = []) (hm : k.cur.mfiles = []) :
    sys_exit fuel k status =
      some { release_if_held k with
             cur := { k.cur with ret_status := status },
             trace := (release_if_held k).trace ++
               [Event.exit_msg k.cur.name status, Event.thread_exit] } := by
  rw [sys_exit_unfold,
    drain_files_nil fuel (release_if_held k) (by rw [release_if_held_cur]; exact hf)]
  simp only
  rw [drain_mfiles_nil fuel (release_if_held k) (by rw [release_if_held_cur]; exact hm)]
  simp [thread_exit, log, release_if_held_cur]

/-- Releasing the lock leaves the collaborators' world alone. -/
theorem release_if_held_world (k : Kernel W) : (release_if_held k).world = k.world := by
  unfold release_if_held
  split <;> rfl

/-- A call of `sys_exit` never hands control back to the caller. -/
theorem of_exit_continues {α : Type} (o : Option (Kernel W)) :
    (of_exit o : Result W α).continues = none := by
  cases o <;> rfl

theorem release_if_held_of_not_held (k : Kernel W) (h : k.held = []) :
    release_if_held k = k := by
  simp [release_if_held, lock_held_by_current_thread, h]

end lemmas

/-! ## The dispatcher -/

section dispatcher
variable {W : Type}

/-- After `syscall_init` every one of the fifteen numbers has a table entry. -/
theorem syscall_init_registers (k : Kernel W) (n : SyscallNr) :
    ∃ h, (syscall_init k).syscall_map.lookup n = some h := by
  cases n <;> exact ⟨_, rfl⟩

/-- C1 (code as written): whatever the frame holds, and with the table filled
by `syscall_init`, `syscall_handler` returns the frame untouched (result
register included) and the run consists of the "system call!" line followed
by `thread_exit`; no registered handler runs. -/
theorem syscall_handler_never_dispatches (k : Kernel W) (f : intr_frame) :
    (∃ h, (syscall_init k).syscall_map.lookup f.number = some h) ∧
    syscall_handler (syscall_init k) f =
      (f, Result.exited
        { syscall_init k with
          trace := k.trace ++ [Event.intr_register_int 0x30,
                               Event.printf "system call!\n", Event.thread_exit] }) := by
  refine ⟨syscall_init_registers k f.number, ?_⟩
  simp [syscall_handler, syscall_init, thread_exit, log]

end dispatcher

/-! ## sys_open -/

section open_file
variable {W : Type}

/-- C2 (as stated, refuted): on a null path `sys_open` hands -1 back to a
caller that keeps running; the thread does not reach `thread_exit` and its
exit status stays what it was. -/
theorem null_open_returns_to_caller :
    sys_open c0 k0 none = Result.ret (-1) k0 ∧
    ¬ ∃ k1, sys_open c0 k0 none = Result.exited k1 ∧ k1.cur.ret_status = -1 := by
  refine ⟨rfl, ?_⟩
  rintro ⟨k1, h, _⟩
  simp [sys_open] at h

/-- C2 (amended): on a null path `sys_open` returns -1 to its caller in the
very state it was called in: no filesystem call, no termination, open-file
list and exit status untouched. -/
theorem sys_open_null (c : Collab W) (k : Kernel W) :
    sys_open c k none = Result.ret (-1) k := rfl

/-- C3: when the filesystem opens the path and the record allocation succeeds,
`sys_open` returns the descriptor produced by `allocate_fid`, and the state it
returns in has exactly one more open-file record, appended at the end, holding
the filesystem's handle and that descriptor; `file_lock` is held as before. -/
theorem sys_open_success (c : Collab W) (k : Kernel W) (path : String)
    (sys_file : FilePtr)
    (hopen : (c.filesys_open k.world path).1 = some sys_file)
    (hmem : (c.malloc (c.filesys_open k.world path).2).1 = true) :
    sys_open c k (some path) =
      Result.ret (c.allocate_fid (c.malloc (c.filesys_open k.world path).2).2).1
        { world := (c.allocate_fid (c.malloc (c.filesys_open k.world path).2).2).2,
          cur := { k.cur with
            files := k.cur.files ++
              [{ file := sys_file,
                 fid := (c.allocate_fid (c.malloc (c.filesys_open k.world path).2).2).1 }] },
          held := k.held,
          syscall_map := k.syscall_map,
          trace := k.trace ++
            [Event.lock_acquire Lock.file_lock,
             Event.filesys_open path (some sys_file),
             Event.lock_release Lock.file_lock,
             Event.malloc true,
             Event.lock_acquire Lock.file_lock,
             Event.allocate_fid
               (c.allocate_fid (c.malloc (c.filesys_open k.world path).2).2).1,
             Event.lock_release Lock.file_lock] } := by
  simp [sys_open, filesys_open, malloc, allocate_fid, lock_acquire, lock_release,
    list_push_back_files, hopen, hmem]

/-- Witness for C3: the fresh process opens "a.txt" under the all-succeeding
collaborators and ends in `k_one` with descriptor 2. -/
theorem sys_open_success_witness :
    (c0.filesys_open k0.world "a.txt").1 = some 7 ∧
    (c0.malloc (c0.filesys_open k0.world "a.txt").2).1 = true ∧
    sys_open c0 k0 (some "a.txt") = Result.ret 2 k_one :=
  ⟨rfl, rfl, sys_open_success c0 k0 "a.txt" 7 rfl rfl⟩

/-- The filesystem cannot open the path: -1, one locked `filesys_open` call. -/
theorem sys_open_nofile (c : Collab W) (k : Kernel W) (path : String)
    (h : (c.filesys_open k.world path).1 = none) :
    sys_open c k (some path) =
      Result.ret (-1)
        { world := (c.filesys_open k.world path).2,
          cur := k.cur,
          held := k.held,
          syscall_map := k.syscall_map,
          trace := k.trace ++
            [Event.lock_acquire Lock.file_lock,
             Event.filesys_open path none,
             Event.lock_release Lock.file_lock] } := by
  simp [sys_open, filesys_open, lock_acquire, lock_release, h]

/-- The path opens and `malloc` returns null: the handle is closed, then -1. -/
theorem sys_open_nomem (c : Collab W) (k : Kernel W) (path : String)
    (sys_file : FilePtr)
    (hopen : (c.filesys_open k.world path).1 = some sys_file)
    (hmem : (c.malloc (c.filesys_open k.world path).2).1 = false) :
    sys_open c k (some path) =
      Result.ret (-1)
        { world := c.file_close (c.malloc (c.filesys_open k.world path).2).2 sys_file,
          cur := k.cur,
          held := k.held,
          syscall_map := k.syscall_map,
          trace := k.trace ++
            [Event.lock_acquire Lock.file_lock,
             Event.filesys_open path (some sys_file),
             Event.lock_release Lock.file_lock,
             Event.malloc false,
             Event.file_close sys_file] } := by
  simp [sys_open, filesys_open, malloc, file_close, lock_acquire, lock_release,
    hopen, hmem]

/-- C4: on a non-null path, when the filesystem cannot open it, or opens it
and the record allocation then fails, `sys_open` returns -1 to a caller that
keeps running, the thread (open-file list, mapping list, exit status) and the
held locks are what they were, and every handle the call obtained from
`filesys_open` has been passed to `file_close`. -/
theorem sys_open_failure (c : Collab W) (k : Kernel W) (path : String)
    (h : (c.filesys_open k.world path).1 = none ∨
         ((c.filesys_open k.world path).1 ≠ none ∧
          (c.malloc (c.filesys_open k.world path).2).1 = false)) :
    ∃ k1 es, sys_open c k (some path) = Result.ret (-1) k1 ∧
      k1.cur = k.cur ∧ k1.held = k.held ∧
      k1.trace = k.trace ++ es ∧ open_handles es = [] := by
  rcases h with h | ⟨hopen, hmem⟩
  · exact ⟨_, _, sys_open_nofile c k path h, rfl, rfl, rfl, rfl⟩
  · obtain ⟨sys_file, hs⟩ := Option.ne_none_iff_exists'.mp hopen
    refine ⟨_, _, sys_open_nomem c k path sys_file hs hmem, rfl, rfl, rfl, ?_⟩
    simp [open_handles, open_handles_from]

/-- Witness for C4: the path opens, `malloc` returns null. -/
theorem sys_open_failure_witness :
    ((c_nomem.filesys_open k0.world "a.txt").1 ≠ none ∧
      (c_nomem.malloc (c_nomem.filesys_open k0.world "a.txt").2).1 = false) ∧
    ∃ k1 es, sys_open c_nomem k0 (some "a.txt") = Result.ret (-1) k1 ∧
      k1.cur = k0.cur ∧ k1.held = k0.held ∧
      k1.trace = k0.trace ++ es ∧ open_handles es = [] :=
  ⟨⟨by simp [c_nomem, c0], rfl⟩,
   sys_open_failure c_nomem k0 "a.txt" (Or.inr ⟨by simp [c_nomem, c0], rfl⟩)⟩

end open_file

/-! ## sys_create, sys_remove -/

section create_remove
variable {W : Type}

/-- Non-null path: `sys_create` makes one `filesys_create` call, with the
arguments it was given and inside `file_lock`, and returns its result. -/
theorem sys_create_nonnull (fuel : Nat) (c : Collab W) (k : Kernel W) (path : String)
    (initial_size : Nat) :
    sys_create fuel c k (some path) initial_size =
      Result.ret (c.filesys_create k.world path initial_size).1
        { world := (c.filesys_create k.world path initial_size).2,
          cur := k.cur,
          held := k.held,
          syscall_map := k.syscall_map,
          trace := k.trace ++
            [Event.lock_acquire Lock.file_lock,
             Event.filesys_create path initial_size
               (c.filesys_create k.world path initial_size).1,
             Event.lock_release Lock.file_lock] } := by
  simp [sys_create, filesys_create, lock_acquire, lock_release]

/-- Non-null path: `sys_remove` makes one `filesys_remove` call, with the path
it was given and inside `file_lock`, and returns its result. -/
theorem sys_remove_nonnull (fuel : Nat) (c : Collab W) (k : Kernel W) (path : String) :
    sys_remove fuel c k (some path) =
      Result.ret (c.filesys_remove k.world path).1
        { world := (c.filesys_remove k.world path).2,
          cur := k.cur,
          held := k.held,
          syscall_map := k.syscall_map,
          trace := k.trace ++
            [Event.lock_acquire Lock.file_lock,
             Event.filesys_remove path (c.filesys_remove k.world path).1,
             Event.lock_release Lock.file_lock] } := by
  simp [sys_remove, filesys_remove, lock_acquire, lock_release]

/-- Null path, nothing in the lists `sys_exit` drains: both handlers end the
thread with status -1 and touch neither the filesystem nor the world. -/
theorem sys_create_remove_null_empty (fuel : Nat) (c : Collab W) (k : Kernel W)
    (initial_size : Nat) (hf : k.cur.files_lsit = []) (hm : k.cur.mfiles = []) :
    sys_create fuel c k none initial_size =
      Result.exited { release_if_held k with
        cur := { k.cur with ret_status := -1 },
        trace := (release_if_held k).trace ++
          [Event.exit_msg k.cur.name (-1), Event.thread_exit] } ∧
    sys_remove fuel c k none =
      Result.exited { release_if_held k with
        cur := { k.cur with ret_status := -1 },
        trace := (release_if_held k).trace ++
          [Event.exit_msg k.cur.name (-1), Event.thread_exit] } := by
  simp only [sys_create, sys_remove, sys_exit_empty fuel k (-1) hf hm, of_exit, and_self]

end create_remove

/-! ## What the handlers keep -/

section invariants
variable {W : Type}

/-- A handler that returns to its caller leaves `files_lsit`, `mfiles` and the
set of held locks as they were. -/
theorem step_keeps (fuel : Nat) (c : Collab W) (k k1 : Kernel W) (x : Call)
    (h : step fuel c k x = some k1) :
    k1.cur.files_lsit = k.cur.files_lsit ∧ k1.cur.mfiles = k.cur.mfiles ∧
    k1.held = k.held := by
  cases x with
  | exec file =>
    simp only [step, sys_exec, Result.continues, Option.some.injEq] at h
    subst h
    simp [process_execute, lock_acquire, lock_release]
  | wait pid =>
    simp only [step, sys_wait, Result.continues, Option.some.injEq] at h
    subst h
    simp [process_wait]
  | create file initial_size =>
    cases file with
    | none => simp [step, sys_create, of_exit_continues] at h
    | some path =>
      rw [step, sys_create_nonnull] at h
      simp only [Result.continues, Option.some.injEq] at h
      subst h
      simp
  | remove file =>
    cases file with
    | none => simp [step, sys_remove, of_exit_continues] at h
    | some path =>
      rw [step, sys_remove_nonnull] at h
      simp only [Result.continues, Option.some.injEq] at h
      subst h
      simp
  | opn file =>
    cases file with
    | none =>
      simp only [step, sys_open, Result.continues, Option.some.injEq] at h
      subst h
      simp
    | some path =>
      cases ho : (c.filesys_open k.world path).1 with
      | none =>
        rw [step, sys_open_nofile c k path ho] at h
        simp only [Result.continues, Option.some.injEq] at h
        subst h
        simp
      | some sys_file =>
        cases hm : (c.malloc (c.filesys_open k.world path).2).1 with
        | false =>
          rw [step, sys_open_nomem c k path sys_file ho hm] at h
          simp only [Result.continues, Option.some.injEq] at h
          subst h
          simp
        | true =>
          simp only [step, sys_open, filesys_open, malloc, allocate_fid, lock_acquire,
            lock_release, list_push_back_files, ho, hm, Result.continues,
            Option.some.injEq] at h
          have h2 := Option.some.inj h
          subst h2
          simp
  | filesize fd =>
    simp only [step, sys_filesize] at h
    cases hp : c.process_get_file (lock_acquire Lock.filesys_lock k).world
        (lock_acquire Lock.filesys_lock k).cur fd with
    | none =>
      rw [hp] at h
      simp only [Result.continues, Option.some.injEq] at h
      subst h
      simp [lock_acquire, lock_release]
    | some f =>
      rw [hp] at h
      simp only [Result.continues, Option.some.injEq] at h
      subst h
      simp [file_length, lock_acquire, lock_release]
  | seek fd position =>
    cases hf : file_by_fid k fd with
    | none => simp [step, sys_seek, hf, of_exit_continues] at h
    | some f =>
      simp only [step, sys_seek, hf, Result.continues, Option.some.injEq] at h
      subst h
      simp [file_seek, lock_acquire, lock_release]
  | read fd buffer size =>
    simp only [step, sys_read, Option.some.injEq] at h
    subst h
    simp
  | write fd buffer size =>
    simp only [step, sys_write, Option.some.injEq] at h
    subst h
    simp
  | tell fd =>
    simp only [step, sys_tell, Option.some.injEq] at h
    subst h
    simp
  | close fd =>
    simp only [step, sys_close, Option.some.injEq] at h
    subst h
    simp
  | mmap fd addr =>
    simp only [step, sys_mmap, Option.some.injEq] at h
    subst h
    simp
  | munmap mapid =>
    simp only [step, sys_munmap, Option.some.injEq] at h
    subst h
    simp

theorem run_keeps (fuel : Nat) (c : Collab W) (calls : List Call) :
    ∀ k k1 : Kernel W, run fuel c k calls = some k1 →
      k1.cur.files_lsit = k.cur.files_lsit ∧ k1.cur.mfiles = k.cur.mfiles ∧
      k1.held = k.held := by
  induction calls with
  | nil =>
    intro k k1 h
    simp only [run, Option.some.injEq] at h
    subst h
    exact ⟨rfl, rfl, rfl⟩
  | cons x xs ih =>
    intro k k1 h
    simp only [run] at h
    cases hs : step fuel c k x with
    | none => rw [hs] at h; cases h
    | some k2 =>
      rw [hs] at h
      obtain ⟨a1, a2, a3⟩ := step_keeps fuel c k k2 x hs
      obtain ⟨b1, b2, b3⟩ := ih k2 k1 h
      exact ⟨b1.trans a1, b2.trans a2, b3.trans a3⟩

/-- Whatever handlers a process has called since it started, the two lists
`sys_exit` drains are empty and no lock is held between calls: nothing in the
file adds to `files_lsit` or `mfiles`. -/
theorem run_fresh (fuel : Nat) (c : Collab W) (w : W) (name : String)
    (calls : List Call) (k : Kernel W) (h : run fuel c (fresh w name) calls = some k) :
    k.cur.files_lsit = [] ∧ k.cur.mfiles = [] ∧ k.held = [] :=
  run_keeps fuel c calls (fresh w name) k h

/-- In every state a process can be in, `sys_exit` gets through both loops
without running their bodies, records the status and reaches `thread_exit`;
the records `sys_open` pushed to `files` are all still there. -/
theorem sys_exit_reachable (fuel0 fuel : Nat) (c : Collab W) (w : W) (name : String)
    (calls : List Call) (k : Kernel W) (status : Int)
    (h : run fuel0 c (fresh w name) calls = some k) :
    sys_exit fuel k status =
      some { k with cur := { k.cur with ret_status := status },
                    trace := k.trace ++ [Event.exit_msg k.cur.name status,
                                         Event.thread_exit] } := by
  obtain ⟨h1, h2, h3⟩ := run_fresh fuel0 c w name calls k h
  rw [sys_exit_empty fuel k status h1 h2, release_if_held_of_not_held k h3]

end invariants

/-! ## sys_create and sys_remove in a running process -/

section create_remove_spec
variable {W : Type}

/-- C5: in a process that started fresh and has made any sequence of calls to
the file's handlers, `sys_create` and `sys_remove` with a null path end the
thread with exit status -1 and add nothing to the trace but the exit line and
`thread_exit` (no filesystem call, world untouched); with a non-null path
(and any initial size) each makes exactly one collaborator call, with the
arguments given, and returns the collaborator's boolean. -/
theorem sys_create_remove_spec (fuel0 fuel : Nat) (c : Collab W) (w : W)
    (name : String) (calls : List Call) (k : Kernel W)
    (hrun : run fuel0 c (fresh w name) calls = some k) :
    (∀ initial_size : Nat,
      sys_create fuel c k none initial_size =
        Result.exited { k with
          cur := { k.cur with ret_status := -1 },
          trace := k.trace ++ [Event.exit_msg k.cur.name (-1), Event.thread_exit] }) ∧
    sys_remove fuel c k none =
      Result.exited { k with
        cur := { k.cur with ret_status := -1 },
        trace := k.trace ++ [Event.exit_msg k.cur.name (-1), Event.thread_exit] } ∧
    (∀ (path : String) (initial_size : Nat),
      sys_create fuel c k (some path) initial_size =
        Result.ret (c.filesys_create k.world path initial_size).1
          { k with
            world := (c.filesys_create k.world path initial_size).2,
            trace := k.trace ++
              [Event.lock_acquire Lock.file_lock,
               Event.filesys_create path initial_size
                 (c.filesys_create k.world path initial_size).1,
               Event.lock_release Lock.file_lock] }) ∧
    (∀ path : String,
      sys_remove fuel c k (some path) =
        Result.ret (c.filesys_remove k.world path).1
          { k with
            world := (c.filesys_remove k.world path).2,
            trace := k.trace ++
              [Event.lock_acquire Lock.file_lock,
               Event.filesys_remove path (c.filesys_remove k.world path).1,
               Event.lock_release Lock.file_lock] }) := by
  have hx : sys_exit fuel k (-1) = _ :=
    sys_exit_reachable fuel0 fuel c w name calls k (-1) hrun
  refine ⟨fun _ => ?_, ?_, fun path n => sys_create_nonnull fuel c k path n,
    fun path => sys_remove_nonnull fuel c k path⟩
  · simp only [sys_create, hx, of_exit]
  · simp only [sys_remove, hx, of_exit]

/-- Witness for C5: the process that has opened "a.txt" and holds one
open-file record. -/
theorem sys_create_remove_spec_witness :
    run 0 c0 (fresh 0 "main") [Call.opn (some "a.txt")] = some k_one ∧
    sys_create 0 c0 k_one none 4 =
      Result.exited { k_one with
        cur := { k_one.cur with ret_status := -1 },
        trace := k_one.trace ++ [Event.exit_msg "main" (-1), Event.thread_exit] } ∧
    sys_remove 0 c0 k_one none =
      Result.exited { k_one with
        cur := { k_one.cur with ret_status := -1 },
        trace := k_one.trace ++ [Event.exit_msg "main" (-1), Event.thread_exit] } ∧
    sys_create 0 c0 k_one (some "b.txt") 4 =
      Result.ret true
        { k_one with
          trace := k_one.trace ++
            [Event.lock_acquire Lock.file_lock, Event.filesys_create "b.txt" 4 true,
             Event.lock_release Lock.file_lock] } ∧
    sys_remove 0 c0 k_one (some "b.txt") =
      Result.ret true
        { k_one with
          trace := k_one.trace ++
            [Event.lock_acquire Lock.file_lock, Event.filesys_remove "b.txt" true,
             Event.lock_release Lock.file_lock] } :=
  ⟨rfl,
   (sys_create_remove_spec 0 0 c0 0 "main" [Call.opn (some "a.txt")] k_one rfl).1 4,
   (sys_create_remove_spec 0 0 c0 0 "main" [Call.opn (some "a.txt")] k_one rfl).2.1,
   (sys_create_remove_spec 0 0 c0 0 "main" [Call.opn (some "a.txt")] k_one rfl).2.2.1
     "b.txt" 4,
   (sys_create_remove_spec 0 0 c0 0 "main" [Call.opn (some "a.txt")] k_one rfl).2.2.2
     "b.txt"⟩

end create_remove_spec

/-! ## sys_close, sys_exit -/

section close_exit
variable {W : Type}

/-- The second of two `sys_close` calls on one descriptor changes nothing. -/
theorem sys_close_twice (k : Kernel W) (fd : Int) :
    sys_close (sys_close k fd) fd = sys_close k fd := rfl

/-- C6 (failing input): one successful `sys_open`, then `sys_close` of the
descriptor it returned (N = 1, M = 1).  The open-file list still holds the
record: its length is 1, not N - M = 0. -/
theorem sys_close_keeps_record :
    sys_open c0 k0 (some "a.txt") = Result.ret 2 k_one ∧
    (sys_close k_one 2).cur.files = [{ file := 7, fid := 2 }] ∧
    (sys_close k_one 2).cur.files.length ≠ 1 - 1 := by
  refine ⟨rfl, rfl, ?_⟩
  simp [sys_close, k_one]

/-- C7 (failing input): a process opens one file and calls `sys_exit`.  The
first loop tests `files_lsit`, which is empty, so its body never runs;
`sys_exit` records the status and reaches `thread_exit` with the record that
`sys_open` pushed to `files` still in the list: the open-file list is not
empty at thread termination. -/
theorem sys_exit_leaves_open_file (fuel : Nat) (status : Int) :
    sys_open c0 k0 (some "a.txt") = Result.ret 2 k_one ∧
    sys_exit fuel k_one status =
      some { k_one with
        cur := { k_one.cur with ret_status := status },
        trace := k_one.trace ++ [Event.exit_msg "main" status, Event.thread_exit] } ∧
    ∀ k1, sys_exit fuel k_one status = some k1 →
      k1.cur.files = [{ file := 7, fid := 2 }] ∧ k1.cur.files ≠ [] := by
  have hx : sys_exit fuel k_one status =
      some { k_one with
        cur := { k_one.cur with ret_status := status },
        trace := k_one.trace ++ [Event.exit_msg "main" status, Event.thread_exit] } := by
    rw [sys_exit_empty fuel k_one status rfl rfl]
    rfl
  refine ⟨rfl, hx, ?_⟩
  intro k1 h
  rw [hx] at h
  cases h
  exact ⟨rfl, by simp [k_one]⟩

end close_exit

/-! ## sys_seek -/

section seek
variable {W : Type}

/-- Known descriptor: one `file_seek` on the record's handle, inside
`file_lock`, then return. -/
theorem sys_seek_known (fuel : Nat) (c : Collab W) (k : Kernel W) (fd : Int)
    (position : Nat) (f : user_file) (h : file_by_fid k fd = some f) :
    sys_seek fuel c k fd position =
      Result.ret ()
        { world := c.file_seek k.world f.file position,
          cur := k.cur,
          held := k.held,
          syscall_map := k.syscall_map,
          trace := k.trace ++
            [Event.lock_acquire Lock.file_lock,
             Event.file_seek f.file position,
             Event.lock_release Lock.file_lock] } := by
  simp [sys_seek, h, file_seek, lock_acquire, lock_release]

/-- C8 (as stated, refuted): in a fresh process descriptor 5 is in no list, and
`sys_seek 5 0` does not return: the thread reaches `thread_exit` with exit
status -1 where it was 0 before. -/
theorem seek_fresh_process_exits :
    file_by_fid k0 5 = none ∧
    sys_seek 0 c0 k0 5 0 =
      Result.exited
        { k0 with
          cur := { k0.cur with ret_status := -1 },
          trace := [Event.exit_msg "main" (-1), Event.thread_exit] } ∧
    k0.cur.ret_status = 0 ∧
    ∀ fuel k1, sys_seek fuel c0 k0 5 0 ≠ Result.ret () k1 := by
  refine ⟨rfl, rfl, rfl, ?_⟩
  intro fuel k1 h
  have h0 : file_by_fid k0 5 = none := rfl
  simp only [sys_seek, h0] at h
  cases hx : sys_exit fuel k0 (-1) <;> rw [hx] at h <;> cases h

/-- C8 (amended): for a descriptor carried by no record of the open-file list,
`sys_seek` is a call of `sys_exit (-1)`: control never returns to the caller;
and when the two lists `sys_exit` drains (`files_lsit`, `mfiles`) are empty,
the thread reaches `thread_exit` with exit status -1, the collaborators' world
untouched and no `file_seek` made. -/
theorem sys_seek_unknown (fuel : Nat) (c : Collab W) (k : Kernel W) (fd : Int)
    (position : Nat) (h : file_by_fid k fd = none) :
    sys_seek fuel c k fd position = of_exit (sys_exit fuel k (-1)) ∧
    (∀ k1, sys_seek fuel c k fd position ≠ Result.ret () k1) ∧
    (k.cur.files_lsit = [] → k.cur.mfiles = [] →
      sys_seek fuel c k fd position =
        Result.exited { release_if_held k with
          cur := { k.cur with ret_status := -1 },
          trace := (release_if_held k).trace ++
            [Event.exit_msg k.cur.name (-1), Event.thread_exit] }) := by
  have h1 : sys_seek fuel c k fd position = of_exit (sys_exit fuel k (-1)) := by
    simp only [sys_seek, h]
  refine ⟨h1, ?_, ?_⟩
  · intro k1 hk
    rw [h1] at hk
    cases hx : sys_exit fuel k (-1) <;> rw [hx] at hk <;> cases hk
  · intro hf hm
    rw [h1, sys_exit_empty fuel k (-1) hf hm]
    rfl

/-- Witness for C8: descriptor 5 in a fresh process. -/
theorem sys_seek_unknown_witness :
    file_by_fid k0 5 = none ∧ k0.cur.files_lsit = [] ∧ k0.cur.mfiles = [] ∧
    sys_seek 3 c0 k0 5 0 =
      Result.exited { release_if_held k0 with
        cur := { k0.cur with ret_status := -1 },
        trace := (release_if_held k0).trace ++
          [Event.exit_msg k0.cur.name (-1), Event.thread_exit] } :=
  ⟨rfl, rfl, rfl, (sys_seek_unknown 3 c0 k0 5 0 rfl).2.2 rfl rfl⟩

end seek

/-! ## sys_filesize -/

section filesize
variable {W : Type}

/-- C9: `sys_filesize` returns to its caller in both cases.  When
`process_get_file` finds a handle, the value is what `file_length` gives for
that handle, from one `file_length` call; when it finds none, the value is -1
and no `file_length` call is made.  The run is free of filesystem calls
exactly when the lookup finds nothing. -/
theorem sys_filesize_spec (c : Collab W) (k : Kernel W) (fd : Int) :
    sys_filesize c k fd =
      (match c.process_get_file k.world k.cur fd with
       | none =>
         Result.ret (-1)
           { k with trace := k.trace ++
               [Event.lock_acquire Lock.filesys_lock,
                Event.lock_release Lock.filesys_lock] }
       | some f =>
         Result.ret (c.file_length k.world f).1
           { k with
             world := (c.file_length k.world f).2,
             trace := k.trace ++
               [Event.lock_acquire Lock.filesys_lock,
                Event.file_length f (c.file_length k.world f).1,
                Event.lock_release Lock.filesys_lock] }) ∧
    (c.process_get_file k.world k.cur fd = none ↔
      (new_events k (sys_filesize c k fd)).all (fun e => !e.is_filesys) = true) := by
  cases h : c.process_get_file k.world k.cur fd with
  | none =>
    have e : sys_filesize c k fd =
        Result.ret (-1)
          { k with trace := k.trace ++
              [Event.lock_acquire Lock.filesys_lock,
               Event.lock_release Lock.filesys_lock] } := by
      simp [sys_filesize, lock_acquire, lock_release, h, ERROR]
    refine ⟨e, ?_⟩
    rw [e]
    simp [new_events, Result.kernel, Event.is_filesys]
  | some f =>
    have e : sys_filesize c k fd =
        Result.ret (c.file_length k.world f).1
          { k with
            world := (c.file_length k.world f).2,
            trace := k.trace ++
              [Event.lock_acquire Lock.filesys_lock,
               Event.file_length f (c.file_length k.world f).1,
               Event.lock_release Lock.filesys_lock] } := by
      simp [sys_filesize, file_length, lock_acquire, lock_release, h]
    refine ⟨e, ?_⟩
    rw [e]
    simp [new_events, Result.kernel, Event.is_filesys]

end filesize

/-! ## Lock discipline -/

section locking
variable {W : Type}

/-- The process-creation call of `sys_exec` is made inside `file_lock`, which
is held afterwards exactly as before. -/
theorem sys_exec_guarded (c : Collab W) (k : Kernel W) (file : Option String) :
    ∃ k1, sys_exec c k file = Result.ret (c.process_execute k.world file).1 k1 ∧
      k1.held = k.held ∧
      guarded Lock.file_lock false (new_events k (sys_exec c k file)) = true := by
  refine ⟨_, rfl, ?_, ?_⟩
  · simp [process_execute, lock_acquire, lock_release]
  · simp [sys_exec, process_execute, lock_acquire, lock_release, new_events,
      Result.kernel, guarded, Event.is_collab, Event.is_filesys]

/-- The successful path of `sys_open` keeps `filesys_open` inside `file_lock`. -/
theorem open_success_path_guarded :
    guarded Lock.file_lock false (new_events k0 (sys_open c0 k0 (some "a.txt"))) = true := by
  decide

/-- C10 (failing input): (1) `sys_open` on a path that opens, with `malloc`
returning null: the run is acquire, `filesys_open`, release, `malloc`,
`file_close`, so `file_close` is called after `file_lock` was released.
(2) `sys_filesize` on an open descriptor: `file_length` is called between
acquire and release of `filesys_lock`, and `file_lock` is not held. -/
theorem file_lock_not_held_at_call :
    new_events k0 (sys_open c_nomem k0 (some "a.txt")) =
      [Event.lock_acquire Lock.file_lock, Event.filesys_open "a.txt" (some 7),
       Event.lock_release Lock.file_lock, Event.malloc false, Event.file_close 7] ∧
    guarded Lock.file_lock false (new_events k0 (sys_open c_nomem k0 (some "a.txt")))
      = false ∧
    new_events k_one (sys_filesize c0 k_one 2) =
      [Event.lock_acquire Lock.filesys_lock, Event.file_length 7 10,
       Event.lock_release Lock.filesys_lock] ∧
    guarded Lock.file_lock false (new_events k_one (sys_filesize c0 k_one 2)) = false := by
  refine ⟨rfl, ?_, rfl, ?_⟩ <;> decide

end locking

end Pintos
